import Mathlib

/-!
Verification development for the `typed-ky` library (`src/lib/index.ts`).

The library wraps the external HTTP client `ky`: `createTypedKy(prefixUrl)`
builds one configured `ky` instance and returns an object with five methods
(`get`, `post`, `put`, `patch`, `delete`), each of which forwards its route
and options to the same-named verb method of the `ky` instance and returns
`.json()` of the response.  All route-table typing (`RouteTypes`,
`RoutesWithMethod`, `MethodOptions`, `TypedKyInstance`) is compile-time only.

The embedding below models:
  * JSON values (`Json`);
  * the options bag a caller passes to a verb method (`KyOptions`);
  * the external world as a `Network`: a function from a verb, a full URL and
    an options bag to either a transport failure or an HTTP response whose
    body is recorded by its JSON-parse outcome;
  * the black-box `ky` client (`KyInstance.verbJson`): per its documented
    behaviour, a verb call joins the configured `prefixUrl` with the route,
    performs the request, raises `HTTPError` for a non-2xx status, and
    `.json()` parses the body, raising a parse error when the body is not
    JSON;
  * the dispatcher `createTypedKy`, translated line by line from the source;
  * the route-table data model (`RouteTable`, mirroring `RouteTypes` and the
    concrete `ExampleApiRoutes` of the test fixture) together with a runtime
    shape-matching predicate;
  * the example server of `src/tests/fixtures/example-server.ts` as a state
    machine over a list of stored things.
-/

namespace TypedKy

/-- JSON values, the structured data exchanged over the wire. -/
inductive Json where
  | null
  | bool (b : Bool)
  | num (n : Int)
  | str (s : String)
  | arr (elems : List Json)
  | obj (fields : List (String × Json))

/-- First field with the given key in a JSON object, as JS property access. -/
def jsonLookup : List (String × Json) → String → Option Json
  | [], _ => none
  | (k, v) :: rest, key => if k = key then some v else jsonLookup rest key

/-- The five HTTP verbs exposed by the dispatcher. -/
inductive Verb where
  | get
  | post
  | put
  | patch
  | delete
  deriving Repr, DecidableEq

/-- The options bag accepted by a verb method: an optional JSON request body,
optional search parameters, and the remaining pass-through `ky` options,
which this layer never inspects. -/
structure KyOptions where
  json : Option Json := none
  searchParams : Option (List (String × String)) := none
  rest : List (String × Json) := []

/-- An HTTP response: a status code and the body, recorded by the outcome of
parsing it as JSON (`Except.error` when the body is not valid JSON, holding
the raw text). -/
structure HttpResponse where
  status : Nat
  bodyJson : Except String Json

/-- The failures the underlying client `ky` signals: a transport/network
failure, an `HTTPError` for a non-2xx response, or a body-parse failure
from `.json()`. -/
inductive KyError where
  | network (msg : String)
  | http (status : Nat) (response : HttpResponse)
  | parse (msg : String)

/-- The external world: what one HTTP request (verb, full URL, options)
produces — a transport failure or a response. -/
def Network : Type := Verb → String → Option KyOptions → Except String HttpResponse

/-- Whether a string ends in a slash. -/
def endsWithSlash (s : String) : Bool :=
  match s.toList.getLast? with
  | some c => c = '/'
  | none => false

/-- URL joining as `ky` performs it for `prefixUrl`: the route is appended,
with a separating slash when the prefix does not already end in one. -/
def joinUrl (prefixUrl route : String) : String :=
  if endsWithSlash prefixUrl then prefixUrl ++ route else prefixUrl ++ "/" ++ route

/-- A configured `ky` client handle: the ambient network plus the
`prefixUrl` it was created with (`ky.create({ prefixUrl })`). -/
structure KyInstance where
  net : Network
  prefixUrl : String

/-- Model of `ky.create({ prefixUrl })`: a client handle configured with the
given prefix URL over the ambient network. -/
def kyCreate (net : Network) (prefixUrl : String) : KyInstance :=
  ⟨net, prefixUrl⟩

/-- What the black-box client does with a received response when `.json()` is
requested: a non-2xx status raises `HTTPError`; otherwise the body is parsed
as JSON, raising a parse failure when it is not valid JSON. -/
def jsonOfResponse (r : HttpResponse) : Except KyError Json :=
  if 200 ≤ r.status ∧ r.status ≤ 299 then
    match r.bodyJson with
    | .ok j => .ok j
    | .error m => .error (.parse m)
  else
    .error (.http r.status r)

/-- Model of `kyInstance.<verb>(route, options).json()`: perform the request
at the prefixed URL, then await and JSON-parse the response as
`jsonOfResponse` describes. -/
def KyInstance.verbJson (k : KyInstance) (v : Verb) (route : String)
    (options : Option KyOptions) : Except KyError Json :=
  match k.net v (joinUrl k.prefixUrl route) options with
  | .error m => .error (.network m)
  | .ok r => jsonOfResponse r

/-- Runtime shape of response declarations: the JSON structure a route's
`responseJson` type describes (field presence and field types). -/
inductive Shape where
  | sNull
  | sBool
  | sNum
  | sStr
  | sArr (elem : Shape)
  | sObj (fields : List (String × Shape))

mutual

/-- Whether a JSON value matches a declared shape: primitives by kind, arrays
elementwise, objects by presence and shape of every declared field (extra
fields are allowed, as in structural typing). -/
def matchesShape : Shape → Json → Bool
  | .sNull, .null => true
  | .sBool, .bool _ => true
  | .sNum, .num _ => true
  | .sStr, .str _ => true
  | .sArr e, .arr xs => matchesElems e xs
  | .sObj fields, .obj jfields => matchesFields fields jfields
  | _, _ => false

/-- Every element of the list matches the element shape. -/
def matchesElems : Shape → List Json → Bool
  | _, [] => true
  | e, x :: xs => matchesShape e x && matchesElems e xs

/-- Every declared field is present in the JSON object and matches its
declared shape. -/
def matchesFields : List (String × Shape) → List (String × Json) → Bool
  | [], _ => true
  | (k, s) :: rest, jfields =>
    (match jsonLookup jfields k with
     | some v => matchesShape s v
     | none => false) && matchesFields rest jfields

end

/-- One verb declaration of a route: the verb, the optional request-body and
search-parameter shapes, and the response shape (`RouteTypes` entry). -/
structure MethodDecl where
  verb : Verb
  requestJson : Option Shape := none
  searchParams : Option (List (String × Shape)) := none
  responseJson : Shape

/-- A route table: route-name strings mapped to their declared verbs
(the runtime rendering of a `RouteTypes` instantiation). -/
def RouteTable : Type := List (String × List MethodDecl)

/-- The declared verb entry for a verb within a route's method list. -/
def findMethod : List MethodDecl → Verb → Option MethodDecl
  | [], _ => none
  | m :: rest, v => if m.verb = v then some m else findMethod rest v

/-- The declared response shape of a route under a verb, when the route table
declares that verb for that route. -/
def declaredResponseShape (table : RouteTable) (route : String) (v : Verb) :
    Option Shape :=
  match table with
  | [] => none
  | (r, methods) :: rest =>
    if r = route then (findMethod methods v).map (·.responseJson)
    else declaredResponseShape rest route v

/-- The dispatcher instance returned by `createTypedKy`: exactly five
per-verb methods, each taking a route and an optional options bag and
producing the parsed response body or the underlying client's failure. -/
structure TypedKyInstance where
  get : String → Option KyOptions → Except KyError Json
  post : String → Option KyOptions → Except KyError Json
  put : String → Option KyOptions → Except KyError Json
  patch : String → Option KyOptions → Except KyError Json
  delete : String → Option KyOptions → Except KyError Json

/-- Translation of `createTypedKy<T>(prefixUrl)`: build one `ky` instance
configured with `prefixUrl`, and return an object whose five methods each
forward route and options to the same-named verb method of that instance and
return `.json()` of the response.  The route-table parameter `T` mirrors the
TypeScript type parameter, which is erased at runtime: the body never uses
it. -/
def createTypedKy (_T : RouteTable) (net : Network) (prefixUrl : String) :
    TypedKyInstance :=
  let kyInstance := kyCreate net prefixUrl
  { get := fun route options => kyInstance.verbJson .get route options
    post := fun route options => kyInstance.verbJson .post route options
    put := fun route options => kyInstance.verbJson .put route options
    patch := fun route options => kyInstance.verbJson .patch route options
    delete := fun route options => kyInstance.verbJson .delete route options }

/-- The dispatcher method named by a verb, as one function of the verb. -/
def TypedKyInstance.call (api : TypedKyInstance) :
    Verb → String → Option KyOptions → Except KyError Json
  | .get => api.get
  | .post => api.post
  | .put => api.put
  | .patch => api.patch
  | .delete => api.delete

/-- Sequential execution of a list of calls on one dispatcher instance: each
call is the named method applied to its route and options, and the instance
handed to the remaining calls is whatever the call leaves behind — the
methods return only a result and touch no field, so it is the same
instance. -/
def runCalls (api : TypedKyInstance) :
    List (Verb × String × Option KyOptions) →
    List (Except KyError Json) × TypedKyInstance
  | [] => ([], api)
  | (v, route, options) :: rest =>
    let result := api.call v route options
    let (results, apiAfter) := runCalls api rest
    (result :: results, apiAfter)

/-- The declared shape of one stored thing: `{ name: string; thing_id: string }`. -/
def thingShape : Shape := .sObj [("name", .sStr), ("thing_id", .sStr)]

/-- The declared response shape of both example routes:
`{ thing: { name: string; thing_id: string } }`. -/
def thingResponseShape : Shape := .sObj [("thing", thingShape)]

/-- The `ExampleApiRoutes` table of the test fixture: `things/add` declares
POST with a `{ name: string }` body, `things/get` declares GET with a
`thing_id` search parameter; both declare the thing response shape. -/
def exampleApiRoutes : RouteTable :=
  [("things/add",
    [{ verb := .post
       requestJson := some (.sObj [("name", .sStr)])
       responseJson := thingResponseShape }]),
   ("things/get",
    [{ verb := .get
       searchParams := some [("thing_id", .sStr)]
       responseJson := thingResponseShape }])]

/-- A record stored by the example server: the `name` taken from the posted
body (`body.name`, absent when the body has no such field) and the generated
identifier. -/
structure Thing where
  name : Option Json
  thing_id : String

/-- The state of the example server: the stored things and the index of the
next generated identifier (modelling `crypto.randomUUID()` as drawing from a
supply of identifiers). -/
structure ServerState where
  things : List Thing
  nextId : Nat

/-- JSON serialisation of a stored thing, as `Response.json` produces it:
`name` first then `thing_id`; a `name` that is `undefined` is dropped. -/
def thingToJson (t : Thing) : Json :=
  match t.name with
  | some n => .obj [("name", n), ("thing_id", .str t.thing_id)]
  | none => .obj [("thing_id", .str t.thing_id)]

/-- Everything after the n-th slash of a character list. -/
def afterSlashes : Nat → List Char → List Char
  | _, [] => []
  | 0, cs => cs
  | n + 1, c :: cs => if c = '/' then afterSlashes n cs else afterSlashes (n + 1) cs

/-- `new URL(req.url).pathname.slice(1)` for a `scheme://host/path` URL with
no query: the part of the URL after the host, with the leading slash
removed — everything past the third slash. -/
def requestPath (url : String) : String :=
  String.mk (afterSlashes 3 url.toList)

/-- `things.find((t) => t.thing_id === thing_id)`: first stored thing with
the given identifier. -/
def findThing : List Thing → String → Option Thing
  | [], _ => none
  | t :: rest, tid => if t.thing_id = tid then some t else findThing rest tid

/-- The JSON request body the server sees, when the options carry one. -/
def optionsJson (options : Option KyOptions) : Option Json :=
  options.bind (·.json)

/-- First value under a key in a search-parameter list
(`url.searchParams.get`). -/
def searchLookup : List (String × String) → String → Option String
  | [], _ => none
  | (k, v) :: rest, key => if k = key then some v else searchLookup rest key

/-- The search parameter the server reads, when the options carry one
(the client encodes `searchParams` into the URL query and the server's URL
parsing recovers them; the embedding passes them through the options bag). -/
def optionsSearch (options : Option KyOptions) (key : String) : Option String :=
  (options.bind (·.searchParams)).bind (fun ps => searchLookup ps key)

/-- `body.name`: the `name` property of the posted body, absent when the body
is not an object with that field. -/
def bodyName : Json → Option Json
  | .obj fields => jsonLookup fields "name"
  | _ => none

/-- The example server's `fetch` handler
(`src/tests/fixtures/example-server.ts`), one request at a time:
POST `things/add` stores a thing named by `body.name` under a fresh generated
identifier and responds `{ thing }`; GET `things/get` looks the identifier up
and responds `{ thing }` or 404; everything else is 404 with a non-JSON
body.  A POST without a JSON body makes `req.json()` throw, which surfaces
as a 500. -/
def exampleServe (ids : Nat → String) (v : Verb) (url : String)
    (options : Option KyOptions) (s : ServerState) :
    HttpResponse × ServerState :=
  let path := requestPath url
  if path = "things/add" ∧ v = .post then
    match optionsJson options with
    | none => (⟨500, .error "no body"⟩, s)
    | some body =>
      let thing : Thing := ⟨bodyName body, ids s.nextId⟩
      (⟨200, .ok (.obj [("thing", thingToJson thing)])⟩,
       ⟨s.things ++ [thing], s.nextId + 1⟩)
  else if path = "things/get" ∧ v = .get then
    match optionsSearch options "thing_id" with
    | none => (⟨404, .error "Not found"⟩, s)
    | some tid =>
      match findThing s.things tid with
      | none => (⟨404, .error "Not found"⟩, s)
      | some thing => (⟨200, .ok (.obj [("thing", thingToJson thing)])⟩, s)
  else (⟨404, .error "Not found"⟩, s)

/-- The example server in a fixed state, seen as the network one request
observes: the server always answers, so there is no transport failure. -/
def exampleNet (ids : Nat → String) (s : ServerState) : Network :=
  fun v url options => .ok (exampleServe ids v url options s).1

/-- The base URL the test obtains from `getExampleServer`. -/
def exampleBase : String := "http://localhost:3000"

/-- The identifier inside a `{ thing: { ..., thing_id } }` response value. -/
def thingIdOf (result : Except KyError Json) : String :=
  match result with
  | .ok (.obj fields) =>
    match jsonLookup fields "thing" with
    | some (.obj tfields) =>
      match jsonLookup tfields "thing_id" with
      | some (.str x) => x
      | _ => ""
    | _ => ""
  | _ => ""

/-- The round-trip scenario of `src/tests/test1-basic-example.test.ts`:
POST `things/add` with a body through the dispatcher against the server in
state `s`, advance the server by that request, then GET `things/get` through
the dispatcher with the identifier the POST returned. -/
def postThenGet (ids : Nat → String) (s : ServerState) (body : Json) :
    Except KyError Json × Except KyError Json :=
  let api := createTypedKy exampleApiRoutes (exampleNet ids s) exampleBase
  let postOptions : KyOptions := { json := some body }
  let addResponse := api.post "things/add" (some postOptions)
  let s1 := (exampleServe ids .post (joinUrl exampleBase "things/add")
      (some postOptions) s).2
  let api1 := createTypedKy exampleApiRoutes (exampleNet ids s1) exampleBase
  let getResponse := api1.get "things/get"
      (some { searchParams := some [("thing_id", thingIdOf addResponse)] })
  (addResponse, getResponse)

/-- A concrete identifier supply standing in for `crypto.randomUUID()`. -/
def exampleIds : Nat → String := fun n => "id-" ++ toString n

/-- The example server before any request. -/
def emptyServer : ServerState := ⟨[], 0⟩

/-- A network whose server answers every request with a plain-text 404, as
the example server does for unknown routes. -/
def notFoundNet : Network := fun _ _ _ => .ok ⟨404, .error "Not found"⟩

/-- A network whose server answers every request 200 with the JSON body
`42` — well-formed JSON that does not conform to any declared response
shape of the example route table. -/
def badNet : Network := fun _ _ _ => .ok ⟨200, .ok (.num 42)⟩

/-- A response body conforming to the declared thing response shape. -/
def goodThingJson : Json :=
  .obj [("thing", .obj [("name", .str "test thing"), ("thing_id", .str "id-0")])]

/-- A network whose server answers every request 200 with a body conforming
to the declared thing response shape. -/
def goodNet : Network := fun _ _ _ => .ok ⟨200, .ok goodThingJson⟩

/-- Inversion of a successful client call: the network produced a response,
its status was 2xx, and its body parsed to the returned JSON value. -/
theorem verbJson_ok_inv (k : KyInstance) (v : Verb) (route : String)
    (options : Option KyOptions) (j : Json)
    (h : k.verbJson v route options = .ok j) :
    ∃ r, k.net v (joinUrl k.prefixUrl route) options = .ok r ∧
      200 ≤ r.status ∧ r.status ≤ 299 ∧ r.bodyJson = .ok j := by
  unfold KyInstance.verbJson at h
  cases hnet : k.net v (joinUrl k.prefixUrl route) options with
  | error m => simp [hnet] at h
  | ok r =>
    rw [hnet] at h
    refine ⟨r, rfl, ?_⟩
    have h2 : jsonOfResponse r = .ok j := h
    unfold jsonOfResponse at h2
    by_cases hc : 200 ≤ r.status ∧ r.status ≤ 299
    · rw [if_pos hc] at h2
      cases hb : r.bodyJson with
      | ok j2 =>
        rw [hb] at h2
        exact ⟨hc.1, hc.2, by simpa using h2⟩
      | error m => rw [hb] at h2; simp at h2
    · rw [if_neg hc] at h2; simp at h2

/-- Both example routes declare the same response shape, so it is the only
shape the example table ever declares. -/
theorem example_shape_unique (route : String) (v : Verb) (S : Shape)
    (h : declaredResponseShape exampleApiRoutes route v = some S) :
    S = thingResponseShape := by
  cases v <;>
    simp only [exampleApiRoutes, declaredResponseShape, findMethod] at h <;>
    split_ifs at h <;> simp_all

/-- Appending a thing with an identifier no stored thing carries and looking
that identifier up finds exactly the appended thing. -/
theorem findThing_append_fresh (xs : List Thing) (t : Thing)
    (h : ∀ x ∈ xs, x.thing_id ≠ t.thing_id) :
    findThing (xs ++ [t]) t.thing_id = some t := by
  induction xs with
  | nil => simp [findThing]
  | cons x rest ih =>
    have hx : ¬x.thing_id = t.thing_id := h x (by simp)
    simp only [List.cons_append, findThing, if_neg hx]
    exact ih fun y hy => h y (by simp [hy])

/-- Claim C1: for every route string and every options value, each of the
five dispatcher methods (get, post, put, patch, delete) is exactly the
same-named verb method of the underlying `ky` instance — it forwards route
and options unchanged, awaits the response and returns its parsed JSON body
(`verbJson` is precisely that pipeline). -/
theorem dispatcher_forwards_each_verb (T : RouteTable) (net : Network)
    (p route : String) (options : Option KyOptions) :
    (createTypedKy T net p).get route options
        = (kyCreate net p).verbJson .get route options ∧
    (createTypedKy T net p).post route options
        = (kyCreate net p).verbJson .post route options ∧
    (createTypedKy T net p).put route options
        = (kyCreate net p).verbJson .put route options ∧
    (createTypedKy T net p).patch route options
        = (kyCreate net p).verbJson .patch route options ∧
    (createTypedKy T net p).delete route options
        = (kyCreate net p).verbJson .delete route options :=
  ⟨rfl, rfl, rfl, rfl, rfl⟩

/-- Claim C2: whenever the underlying client call signals a failure —
network error, non-2xx response or body-parse failure, all of which are the
`KyError` cases — the dispatcher returns that exact failure: it catches
nothing, retries nothing and adds no error handling of its own. -/
theorem client_failures_propagate_unchanged (T : RouteTable) (net : Network)
    (p route : String) (v : Verb) (options : Option KyOptions) (e : KyError)
    (h : (kyCreate net p).verbJson v route options = .error e) :
    (createTypedKy T net p).call v route options = .error e := by
  cases v <;> exact h

/-- Witness for C2: against a server that answers a plain-text 404, the
underlying client raises `HTTPError` and the dispatcher surfaces that very
error. -/
theorem client_failures_propagate_unchanged_witness :
    (createTypedKy exampleApiRoutes notFoundNet exampleBase).call .get "missing" none
      = .error (.http 404 ⟨404, .error "Not found"⟩) :=
  client_failures_propagate_unchanged exampleApiRoutes notFoundNet exampleBase
    "missing" .get none (.http 404 ⟨404, .error "Not found"⟩) rfl

/-- Counterexample to C3 as stated: `things/get` is declared with verb GET
and the thing response shape, yet against a server that answers 200 with
body `42` the call succeeds and returns a value that does not match the
declared shape — the dispatcher never validates. -/
theorem declared_shape_claim_counterexample :
    declaredResponseShape exampleApiRoutes "things/get" .get = some thingResponseShape ∧
    (createTypedKy exampleApiRoutes badNet exampleBase).get "things/get" none
      = .ok (.num 42) ∧
    matchesShape thingResponseShape (.num 42) = false :=
  ⟨rfl, rfl, by simp [matchesShape, thingResponseShape]⟩

/-- Claim C3 (amended): for every route declared in the route table with a
given verb and response shape, every successful call of that verb on that
route returns a value matching the declared shape, provided the underlying
server's successful responses on declared routes conform to the declared
shapes — the dispatcher itself validates nothing, so conformance comes from
the server alone. -/
theorem conforming_responses_match_declared_shape
    (T : RouteTable) (net : Network) (p : String)
    (hconf : ∀ v route S options r j,
      declaredResponseShape T route v = some S →
      net v (joinUrl p route) options = .ok r →
      200 ≤ r.status → r.status ≤ 299 → r.bodyJson = .ok j →
      matchesShape S j = true)
    (v : Verb) (route : String) (S : Shape) (options : Option KyOptions) (j : Json)
    (hS : declaredResponseShape T route v = some S)
    (hcall : (createTypedKy T net p).call v route options = .ok j) :
    matchesShape S j = true := by
  have hvj : (kyCreate net p).verbJson v route options = .ok j := by
    cases v <;> exact hcall
  obtain ⟨r, hnet, h1, h2, hb⟩ := verbJson_ok_inv (kyCreate net p) v route options j hvj
  exact hconf v route S options r j hS hnet h1 h2 hb

/-- Witness for the amended C3: a server that always answers 200 with a
conforming thing body satisfies the conformance hypothesis, and the
successful GET on `things/get` returns a value matching the declared
shape. -/
theorem conforming_responses_match_declared_shape_witness :
    matchesShape thingResponseShape goodThingJson = true :=
  conforming_responses_match_declared_shape exampleApiRoutes goodNet exampleBase
    (by
      intro v route S options r j hS hnet h1 h2 hb
      have hr : (⟨200, Except.ok goodThingJson⟩ : HttpResponse) = r := by
        simpa [goodNet] using hnet
      rw [← hr] at hb
      have hj : goodThingJson = j := by simpa using hb
      rw [example_shape_unique route v S hS, ← hj]
      simp [matchesShape, matchesFields, thingResponseShape, thingShape,
        jsonLookup, goodThingJson])
    .get "things/get" thingResponseShape none goodThingJson rfl rfl

/-- Claim C4: `createTypedKy` takes a base URL, constructs exactly one
underlying client handle configured with that input, and returns a
dispatcher whose five per-verb methods (its only fields) each return the
parsed response body obtained from that single handle. -/
theorem createTypedKy_one_client_five_methods (T : RouteTable) (net : Network)
    (p : String) :
    ∃ k : KyInstance, k = kyCreate net p ∧ k.prefixUrl = p ∧
      createTypedKy T net p =
        { get := k.verbJson .get
          post := k.verbJson .post
          put := k.verbJson .put
          patch := k.verbJson .patch
          delete := k.verbJson .delete } :=
  ⟨kyCreate net p, rfl, rfl, rfl⟩

/-- Claim C5: the runtime dispatcher is independent of the route table —
instantiating `createTypedKy` with any two route tables and the same client
configuration yields the same function, because the table exists only at
compile time and the runtime never inspects it. -/
theorem runtime_independent_of_route_table (T₁ T₂ : RouteTable) (net : Network)
    (p : String) :
    createTypedKy T₁ net p = createTypedKy T₂ net p := rfl

/-- Claim C6: no call mutates the dispatcher instance or shares mutable
state with other calls — running any sequence of calls leaves the instance
exactly as constructed, and each call's result is the method applied to its
own arguments alone, independent of the calls before it. -/
theorem calls_leave_instance_unchanged (api : TypedKyInstance)
    (calls : List (Verb × String × Option KyOptions)) :
    runCalls api calls
      = (calls.map fun c => api.call c.1 c.2.1 c.2.2, api) := by
  induction calls with
  | nil => rfl
  | cons c rest ih =>
    obtain ⟨v, route, options⟩ := c
    simp [runCalls, ih]

/-- Claim C7: round-trip against the example server — posting a body on
`things/add` and then getting `things/get` by the identifier the post
returned yields the same `{ thing }` record the post returned, whenever the
generated identifier is fresh (as `crypto.randomUUID` guarantees). -/
theorem post_then_get_round_trip (ids : Nat → String) (s : ServerState)
    (body : Json)
    (hfresh : ∀ t ∈ s.things, t.thing_id ≠ ids s.nextId) :
    ∃ tj, (postThenGet ids s body).1 = .ok (.obj [("thing", tj)]) ∧
      (postThenGet ids s body).2 = .ok (.obj [("thing", tj)]) := by
  refine ⟨thingToJson ⟨bodyName body, ids s.nextId⟩, rfl, ?_⟩
  have hid : thingIdOf (.ok (.obj
      [("thing", thingToJson ⟨bodyName body, ids s.nextId⟩)])) = ids s.nextId := by
    cases hn : bodyName body <;> simp [thingIdOf, thingToJson, jsonLookup, hn]
  have hfind : findThing (s.things ++ [⟨bodyName body, ids s.nextId⟩])
      (ids s.nextId) = some ⟨bodyName body, ids s.nextId⟩ :=
    findThing_append_fresh s.things ⟨bodyName body, ids s.nextId⟩ hfresh
  have hget : (postThenGet ids s body).2
      = jsonOfResponse
          (match findThing (s.things ++ [(⟨bodyName body, ids s.nextId⟩ : Thing)])
            (thingIdOf (.ok (.obj
              [("thing", thingToJson ⟨bodyName body, ids s.nextId⟩)]))) with
          | none => ((⟨404, .error "Not found"⟩ : HttpResponse),
              (⟨s.things ++ [(⟨bodyName body, ids s.nextId⟩ : Thing)],
                s.nextId + 1⟩ : ServerState))
          | some thing =>
            ((⟨200, .ok (.obj [("thing", thingToJson thing)])⟩ : HttpResponse),
              (⟨s.things ++ [(⟨bodyName body, ids s.nextId⟩ : Thing)],
                s.nextId + 1⟩ : ServerState))).1 := rfl
  rw [hget, hid, hfind]
  rfl

/-- Witness for C7: from the empty server, posting `{"name": "test thing"}`
and getting the returned identifier yields the same record both times. -/
theorem post_then_get_round_trip_witness :
    (∀ t ∈ emptyServer.things, t.thing_id ≠ exampleIds emptyServer.nextId) ∧
    ∃ tj, (postThenGet exampleIds emptyServer (.obj [("name", .str "test thing")])).1
        = .ok (.obj [("thing", tj)]) ∧
      (postThenGet exampleIds emptyServer (.obj [("name", .str "test thing")])).2
        = .ok (.obj [("thing", tj)]) :=
  ⟨by simp [emptyServer],
   post_then_get_round_trip exampleIds emptyServer (.obj [("name", .str "test thing")])
     (by simp [emptyServer])⟩

/-- Claim C8: when the underlying server answers a request with status 404,
the dispatcher call fails with exactly the underlying client's
non-success-status error (`HTTPError` 404 carrying that response), not a
value and not an error of the dispatcher's own. -/
theorem status_404_rejects_with_http_error (T : RouteTable) (net : Network)
    (p route : String) (v : Verb) (options : Option KyOptions) (r : HttpResponse)
    (hnet : net v (joinUrl p route) options = .ok r)
    (hstatus : r.status = 404) :
    (createTypedKy T net p).call v route options = .error (.http 404 r) := by
  have hvj : (kyCreate net p).verbJson v route options = .error (.http 404 r) := by
    unfold KyInstance.verbJson
    simp only [kyCreate, hnet, jsonOfResponse, hstatus]
    simp
  cases v <;> exact hvj

/-- Witness for C8: the example server answers 404 on an undeclared route,
and the dispatcher call fails with the client's `HTTPError` for it. -/
theorem status_404_rejects_with_http_error_witness :
    (createTypedKy exampleApiRoutes (exampleNet exampleIds emptyServer) exampleBase).call
      .get "missing" none = .error (.http 404 ⟨404, .error "Not found"⟩) :=
  status_404_rejects_with_http_error exampleApiRoutes
    (exampleNet exampleIds emptyServer) exampleBase "missing" .get none
    ⟨404, .error "Not found"⟩ rfl rfl

/-- Claim C9: calling any dispatcher method with the options argument
omitted is accepted and forwards `undefined` (here `none`) as the options to
the underlying client's verb method, going through exactly the same pipeline
as with an explicit options bag. -/
theorem omitted_options_forward_undefined (T : RouteTable) (net : Network)
    (p route : String) (v : Verb) :
    (createTypedKy T net p).call v route none
      = (kyCreate net p).verbJson v route none := by
  cases v <;> rfl

/-- Claim C10: the dispatcher performs no runtime validation of the response:
whenever the server answers 2xx with a body whose JSON parse is `j`, the
call returns exactly `j`, with no condition relating `j` to the route's
declared response shape. -/
theorem no_runtime_response_validation (T : RouteTable) (net : Network)
    (p route : String) (v : Verb) (options : Option KyOptions)
    (r : HttpResponse) (j : Json)
    (hnet : net v (joinUrl p route) options = .ok r)
    (h1 : 200 ≤ r.status) (h2 : r.status ≤ 299)
    (hb : r.bodyJson = .ok j) :
    (createTypedKy T net p).call v route options = .ok j := by
  have hvj : (kyCreate net p).verbJson v route options = .ok j := by
    unfold KyInstance.verbJson
    simp only [kyCreate, hnet, jsonOfResponse, hb]
    simp [h1, h2]
  cases v <;> exact hvj

/-- Witness for C10: on the declared route `things/get`, a 200 answer with
body `42` is returned as the value `42` although it violates the declared
response shape. -/
theorem no_runtime_response_validation_witness :
    (createTypedKy exampleApiRoutes badNet exampleBase).call .get "things/get" none
        = .ok (.num 42) ∧
    matchesShape thingResponseShape (.num 42) = false :=
  ⟨no_runtime_response_validation exampleApiRoutes badNet exampleBase "things/get"
      .get none ⟨200, .ok (.num 42)⟩ (.num 42) rfl (by decide) (by decide) rfl,
   by simp [matchesShape, thingResponseShape]⟩

end TypedKy
